import Mathlib

/-!
# Verification of the `pgcrtauth` certificate pair lifecycle engine

Shallow embedding of the `crtauth` package (and the key-size parsing of the
`cmd` package) of the `pgcrtauth` repository, together with theorems settling
the specification claims about it.

Modelling conventions:
* Go machine integers (`int`, `time.Duration`) are modelled as `Int`, with an
  explicit wrap at 64 bits (`wrap64`) exactly where the Go code multiplies
  into an `int64` (`time.Duration`) and overflow is possible.
* Calls into the Go standard library (`crypto/x509`, `crypto/rand`,
  `encoding/pem`, `net`, `os`) are modelled at the level of the fields and
  behaviours this package uses; randomness and the system clock are supplied
  through an explicit environment (`Env`), and the filesystem through an
  explicit state (`FS`) with injectable I/O failures.
* Go methods that mutate their receiver are embedded as functions returning
  the updated value next to the `error` result, mirroring in-place mutation
  by explicit state passing (the updated value is meaningful on both the
  `ok` and the `error` path, exactly as the mutated Go struct is).
-/

deriving instance DecidableEq for Except

namespace PGCrtAuth

/-- Models Go `strings.ToUpper` (ASCII): uppercase every character. -/
def strToUpper (s : String) : String := ⟨s.data.map Char.toUpper⟩

/-- Drop leading whitespace from a character list. -/
def dropSpaces : List Char → List Char
  | [] => []
  | c :: cs => if c.isWhitespace then dropSpaces cs else c :: cs

/-- Models Go `strings.TrimSpace`: drop leading and trailing whitespace. -/
def strTrim (s : String) : String :=
  ⟨(dropSpaces (dropSpaces s.data).reverse).reverse⟩

/-- Models Go `strings.HasPrefix(s, "P")`. -/
def strHasPrefixP (s : String) : Bool :=
  match s.data with
  | 'P' :: _ => true
  | _ => false

/-- Drop the first `n` characters of a string (Go `s[n:]` for ASCII). -/
def strDrop (s : String) (n : Nat) : String := ⟨s.data.drop n⟩

/-- Accumulate decimal digits; `none` until at least one digit was seen or
when a non-digit appears. -/
def parseDigits : List Char → Option Nat → Option Nat
  | [], acc => acc
  | c :: cs, acc =>
    if c.isDigit then
      parseDigits cs (some ((acc.getD 0) * 10 + (c.toNat - 48)))
    else none

/-- Models Go `strconv.Atoi` on the token widths this program meets: an
optional sign followed by at least one decimal digit (the 64-bit range check
of the real function is immaterial for the eight valid tokens). -/
def atoi (s : String) : Option Int :=
  match s.data with
  | '-' :: rest => (parseDigits rest none).map (fun n => -(n : Int))
  | '+' :: rest => (parseDigits rest none).map (fun n => (n : Int))
  | _ => (parseDigits s.data none).map (fun n => (n : Int))

/-- Two to the 63rd, as an integer literal usable by `omega`. -/
def int64Half : Int := 9223372036854775808

/-- Two to the 64th, as an integer literal usable by `omega`. -/
def int64Size : Int := 18446744073709551616

/-- Wrap an unbounded integer into the signed 64-bit range, the way Go
arithmetic on `int64`/`time.Duration` overflows. -/
def wrap64 (x : Int) : Int :=
  (x + int64Half) % int64Size - int64Half

/-- An IP address as produced by Go's `net.ParseIP` (a byte slice). -/
abbrev IP := List Nat

/-- The subset of `pkix.Name` used by the package (`Organization`,
`CommonName`). -/
structure PkixName where
  Organization : List String := []
  CommonName : String := ""
deriving DecidableEq

/-- The subset of Go's `x509.Certificate` that the `crtauth` package reads or
writes.  Default field values are the Go zero values, so `{}` is the empty
certificate `x509.Certificate{}`. -/
structure Certificate where
  SerialNumber : Option Nat := none
  Subject : PkixName := {}
  Issuer : PkixName := {}
  NotBefore : Int := 0
  NotAfter : Int := 0
  BasicConstraintsValid : Bool := false
  IPAddresses : List IP := []
  DNSNames : List String := []
  IsCA : Bool := false
  KeyUsage : Nat := 0
  ExtKeyUsage : Option (List Nat) := none
deriving DecidableEq

/-- Go `x509.KeyUsageDigitalSignature`. -/
def KeyUsageDigitalSignature : Nat := 1
/-- Go `x509.KeyUsageKeyEncipherment`. -/
def KeyUsageKeyEncipherment : Nat := 4
/-- Go `x509.KeyUsageCertSign`. -/
def KeyUsageCertSign : Nat := 32
/-- Go `x509.KeyUsageCRLSign`. -/
def KeyUsageCRLSign : Nat := 64
/-- Go `x509.ExtKeyUsageServerAuth`. -/
def ExtKeyUsageServerAuth : Nat := 1

/-- A private key as produced by `genPrivKey`: either an `rsa.PrivateKey`
with a modulus bit length, or an `ecdsa.PrivateKey` on a named curve.  The
`rand` field carries the value drawn from the random source, so two
generations with different randomness are distinguishable. -/
inductive PrivateKey where
  | rsa (bits : Nat) (rand : Nat)
  | ec (curveBits : Nat) (rand : Nat)
deriving DecidableEq

/-- The public key derived from a `PrivateKey`. -/
inductive PublicKey where
  | rsa (bits : Nat) (rand : Nat)
  | ec (curveBits : Nat) (rand : Nat)
deriving DecidableEq

/-- Modelled from the spec: the `publicKey` helper of the package (its source
file is not among the provided sources; only its callers are).  Per the spec,
signing derives the receiver's public key from its held private key; for
`rsa`/`ecdsa` keys this is the embedded public part, and for a nil key there
is no public key. -/
def publicKey : Option PrivateKey → Option PublicKey
  | none => none
  | some (.rsa bits r) => some (.rsa bits r)
  | some (.ec bits r) => some (.ec bits r)

/-- The payload of a PEM block, as seen through the Go standard-library
parsers this package calls: bytes that parse as a certificate, as a PKCS#1
RSA key, as a SEC 1 EC key, or as none of those. -/
inductive Payload where
  | certDER (c : Certificate)
  | rsaDER (bits : Nat) (rand : Nat)
  | ecDER (curveBits : Nat) (rand : Nat)
  | garbage (id : Nat)
deriving DecidableEq

/-- A PEM block: a type label plus payload bytes (Go `pem.Block`; the Go
field `Type` is spelled `btype` here because `Type` is reserved). -/
structure Block where
  btype : String
  payload : Payload
deriving DecidableEq

/-- Models Go `x509.ParseCertificate` on a block's bytes. -/
def parseCertificateBytes : Payload → Except String Certificate
  | .certDER c => .ok c
  | _ => .error "x509: malformed certificate"

/-- Models Go `x509.ParsePKCS1PrivateKey` on a block's bytes. -/
def parsePKCS1PrivateKey : Payload → Except String PrivateKey
  | .rsaDER bits r => .ok (.rsa bits r)
  | _ => .error "x509: failed to parse private key"

/-- Models Go `x509.ParseECPrivateKey` on a block's bytes. -/
def parseECPrivateKey : Payload → Except String PrivateKey
  | .ecDER bits r => .ok (.ec bits r)
  | _ => .error "x509: failed to parse EC private key"

/-- The normalisation `readPEMCert`/`readPEMKey` apply to a block's type
label: `strings.ToUpper` then `strings.TrimSpace`. -/
def normType (s : String) : String := strTrim (strToUpper s)

/-- Embedding of `readPEMCert` (crtauth/util.go): scan the PEM stream block
by block (`pem.Decode` yields the next block, or nil at exhaustion), and
parse the first block whose normalised label is `CERTIFICATE`. -/
def readPEMCert : List Block → Except String Certificate
  | [] => .error "CERTIFICATE block not found"
  | b :: rest =>
    if normType b.btype == "CERTIFICATE" then
      parseCertificateBytes b.payload
    else
      readPEMCert rest

/-- Embedding of `readPEMKey` (crtauth/util.go): scan the PEM stream block by
block and parse the first block labelled `RSA PRIVATE KEY` (as PKCS#1) or
`EC PRIVATE KEY` (as SEC 1). -/
def readPEMKey : List Block → Except String PrivateKey
  | [] => .error "PRIVATE KEY block not found"
  | b :: rest =>
    if normType b.btype == "RSA PRIVATE KEY" then
      parsePKCS1PrivateKey b.payload
    else if normType b.btype == "EC PRIVATE KEY" then
      parseECPrivateKey b.payload
    else
      readPEMKey rest

/-- Embedding of `daysToDuration` (crtauth/util.go):
`time.Duration(days) * 24 * time.Hour`.  `time.Duration` is an `int64`
nanosecond count, so each multiplication wraps at 64 bits.
`time.Hour = 3600000000000` nanoseconds. -/
def daysToDuration (days : Int) : Int :=
  wrap64 (wrap64 (days * 24) * 3600000000000)

/-- Embedding of `genPrivKey` (crtauth/util.go).  The random source is
modelled by `keyRand` (`none` = the source fails, e.g. entropy exhaustion).
For `bits < 1024` the Go switch leaves the curve nil when `bits` is not one
of 224/256/384/521 and `ecdsa.GenerateKey` then faults on the nil curve;
that fault is modelled as an error result. -/
def genPrivKey (keyRand : Option Nat) (bits : Int) : Except String PrivateKey :=
  if bits < 1024 then
    if bits = 224 ∨ bits = 256 ∨ bits = 384 ∨ bits = 521 then
      match keyRand with
      | none => .error "failed to generate private key: entropy source exhausted"
      | some r => .ok (.ec bits.toNat r)
    else
      .error "runtime error: invalid memory address or nil pointer dereference"
  else
    match keyRand with
    | none => .error "failed to generate private key: entropy source exhausted"
    | some r => .ok (.rsa bits.toNat r)

/-- Modelled from the spec: `randSerial` (its source file is not among the
provided sources; only its caller `to509` is).  Per the spec it generates a
cryptographically random non-negative serial number and fails only when the
entropy source fails; the drawn value, or the failure, is supplied by the
environment. -/
def randSerial : Option Nat → Except String Nat
  | none => .error "rand: entropy source exhausted"
  | some n => .ok n

/-- The ambient environment of one engine invocation: the clock, the two
draws from the secure random source (serial number and key generation,
`none` meaning that draw fails), the `net.ParseIP` classifier, and the
operating system identifier `runtime.GOOS`. -/
structure Env where
  now : Int
  serialRand : Option Nat
  keyRand : Option Nat
  parseIP : String → Option IP
  goos : String

/-- Embedding of the `Template` structure (crtauth/template.go). -/
structure Template where
  Organization : String := ""
  CommonName : String := ""
  HostNames : List String := []
  ValidForDays : Int := 0
  KeyBits : Int := 0
deriving DecidableEq

/-- Embedding of `NewTemplate` (crtauth/template.go). -/
def NewTemplate : Template :=
  { ValidForDays := 365, KeyBits := 256 }

/-- The host-name classification loop of `to509`: append each identifier
that `net.ParseIP` accepts to `IPAddresses`, every other one to
`DNSNames`. -/
def classifyHosts (parseIP : String → Option IP) (c : Certificate) :
    List String → Certificate
  | [] => c
  | h :: rest =>
    match parseIP h with
    | some ip =>
      classifyHosts parseIP { c with IPAddresses := c.IPAddresses ++ [ip] } rest
    | none =>
      classifyHosts parseIP { c with DNSNames := c.DNSNames ++ [h] } rest

/-- Embedding of `Template.to509` (crtauth/template.go): draw a serial
number, set subject, validity window and basic constraints, then classify
the host names (the Go code guards the loop with `len(t.HostNames) > 0`;
the loop body is `classifyHosts`). -/
def Template.to509 (env : Env) (t : Template) : Except String Certificate :=
  match randSerial env.serialRand with
  | .error e => .error ("To509() failed: " ++ e)
  | .ok serial =>
    let duration := daysToDuration t.ValidForDays
    let cert : Certificate :=
      { SerialNumber := some serial
        Subject := { Organization := [t.Organization], CommonName := t.CommonName }
        NotBefore := env.now
        NotAfter := env.now + duration
        BasicConstraintsValid := true }
    let cert :=
      if 0 < t.HostNames.length then
        classifyHosts env.parseIP cert t.HostNames
      else
        cert
    .ok cert

/-- Embedding of the `Pair` structure (crtauth/pair.go).  The Go fields
`Cert` and `Key` are pointers/interfaces that may be nil, hence `Option`;
the zero value `Pair{}` is `{}`. -/
structure Pair where
  Cert : Option Certificate := none
  Key : Option PrivateKey := none
  KeyBits : Int := 0
deriving DecidableEq

/-- Embedding of `NewPair` (crtauth/pair.go).  Note the behaviour of the Go
code on a `to509` failure: the error is discarded and an empty
`x509.Certificate{}` is used instead, so only a key-generation failure makes
`NewPair` return an error. -/
def NewPair (env : Env) (t : Template) : Except String Pair :=
  let cert : Certificate :=
    match t.to509 env with
    | .error _ => {}
    | .ok c => c
  match genPrivKey env.keyRand t.KeyBits with
  | .error e => .error ("failed to generate private key for pair: " ++ e)
  | .ok key => .ok { Cert := some cert, Key := some key, KeyBits := t.KeyBits }

/-- Embedding of `NewCAPair` (crtauth/pair.go): a `NewPair` whose certificate
is marked is-CA with the CA key usages added.  (`NewPair` always sets a
non-nil certificate, so the Go field writes through the pointer are the
`Option.map` below.) -/
def NewCAPair (env : Env) (t : Template) : Except String Pair :=
  match NewPair env t with
  | .error e => .error e
  | .ok pair =>
    .ok { pair with
          Cert := pair.Cert.map (fun c =>
            { c with
              IsCA := true
              KeyUsage := c.KeyUsage |||
                (KeyUsageDigitalSignature ||| KeyUsageCertSign ||| KeyUsageCRLSign) }) }

/-- Embedding of `NewServerPair` (crtauth/pair.go): a `NewPair` with
key-encipherment and digital-signature usage and server-auth extended key
usage appended (initialising the extended-usage list when it is nil). -/
def NewServerPair (env : Env) (t : Template) : Except String Pair :=
  match NewPair env t with
  | .error e => .error e
  | .ok pair =>
    .ok { pair with
          Cert := pair.Cert.map (fun c =>
            let c := { c with
              KeyUsage := c.KeyUsage |||
                (KeyUsageKeyEncipherment ||| KeyUsageDigitalSignature) }
            let eku := match c.ExtKeyUsage with
              | none => []
              | some l => l
            { c with ExtKeyUsage := some (eku ++ [ExtKeyUsageServerAuth]) }) }

/-- Embedding of `Pair.LoadCert` (crtauth/pair.go): decode a certificate from
the PEM stream; on success overwrite the `Cert` field. -/
def Pair.LoadCert (p : Pair) (blocks : List Block) : Except String Unit × Pair :=
  match readPEMCert blocks with
  | .error e => (.error ("failed reading certificate: " ++ e), p)
  | .ok cert => (.ok (), { p with Cert := some cert })

/-- Embedding of `Pair.LoadKey` (crtauth/pair.go): decode a private key from
the PEM stream; on success overwrite the `Key` field. -/
def Pair.LoadKey (p : Pair) (blocks : List Block) : Except String Unit × Pair :=
  match readPEMKey blocks with
  | .error e => (.error ("failed reading key: " ++ e), p)
  | .ok key => (.ok (), { p with Key := some key })

/-- Metadata and content of one file in the modelled filesystem: its PEM
blocks, its permission bits at creation, and whether the extra OS-level
ACL-tightening pass has been applied to it. -/
structure FileInfo where
  blocks : List Block
  perm : Nat
  restricted : Bool
deriving DecidableEq

/-- The filesystem state: files by path, existing directories, and the set of
paths on which the operating system reports an I/O failure (failure
injection for `os.MkdirAll` / `os.OpenFile`). -/
structure FS where
  files : String → Option FileInfo
  dirs : String → Bool
  failPaths : String → Bool

/-- Drop characters up to and including the first slash. -/
def dropUntilSlash : List Char → List Char
  | [] => []
  | c :: cs => if c = '/' then cs else dropUntilSlash cs

/-- Models `filepath.Dir` for slash-separated paths: everything before the
last slash (the empty string standing for the current directory). -/
def dirOf (p : String) : String :=
  ⟨(dropUntilSlash p.data.reverse).reverse⟩

/-- Models `filepath.Join` of a directory and a file name. -/
def joinPath (dir name : String) : String := dir ++ "/" ++ name

/-- Models `os.MkdirAll`: record the directory as existing (idempotent),
failing on paths marked as failing. -/
def FS.mkdirAll (fs : FS) (dir : String) (_perm : Nat) : Except String FS :=
  if fs.failPaths dir then
    .error ("mkdir " ++ dir ++ ": permission denied")
  else
    .ok { fs with dirs := fun q => if q = dir then true else fs.dirs q }

/-- Embedding of `ensureDirExists` (crtauth/util.go): `os.MkdirAll` unless
the directory already exists. -/
def FS.ensureDirExists (fs : FS) (dir : String) (perm : Nat) : Except String FS :=
  if fs.dirs dir then .ok fs
  else
    match fs.mkdirAll dir perm with
    | .error e => .error ("cannot create directory " ++ dir ++ ": " ++ e)
    | .ok fs => .ok fs

/-- Models `os.OpenFile(name, O_RDWR|O_CREATE|O_TRUNC, filePerm)`: truncate
an existing file (permission bits and applied ACL restrictions are
metadata that truncation does not touch), or create a fresh one with the
given permission bits. -/
def FS.openFileCreate (fs : FS) (name : String) (filePerm : Nat) :
    Except String FS :=
  if fs.failPaths name then
    .error ("open " ++ name ++ ": permission denied")
  else
    match fs.files name with
    | some f =>
      .ok { fs with files := fun q =>
              if q = name then some { f with blocks := [] } else fs.files q }
    | none =>
      .ok { fs with files := fun q =>
              if q = name then some ⟨[], filePerm, false⟩ else fs.files q }

/-- Embedding of `mkdirAndCreateFile` (crtauth/util.go): ensure the parent
directory exists, then create/truncate the file. -/
def FS.mkdirAndCreateFile (fs : FS) (name : String) (dirPerm filePerm : Nat) :
    Except String FS :=
  match fs.ensureDirExists (dirOf name) dirPerm with
  | .error e => .error ("file " ++ name ++ " not created: " ++ e)
  | .ok fs => fs.openFileCreate name filePerm

/-- Models `pem.Encode` to an open file: append the block to the file's
contents. -/
def FS.appendBlock (fs : FS) (name : String) (b : Block) : Except String FS :=
  match fs.files name with
  | none => .error ("write " ++ name ++ ": file not open")
  | some f =>
    .ok { fs with files := fun q =>
            if q = name then some { f with blocks := f.blocks ++ [b] }
            else fs.files q }

/-- Embedding of `restrictKeyPermissions` (crtauth/util.go): on Windows run
the two `icacls` passes (modelled as marking the file's ACL as restricted to
the owner); on every other platform do nothing. -/
def FS.restrictKeyPermissions (fs : FS) (goos : String) (keyPath : String) :
    Except String FS :=
  if goos = "windows" then
    match fs.files keyPath with
    | none => .error ("icacls: " ++ keyPath ++ ": file not found")
    | some f =>
      .ok { fs with files := fun q =>
              if q = keyPath then some { f with restricted := true }
              else fs.files q }
  else
    .ok fs

/-- Embedding of `pemBlockForCert` (crtauth/util.go): a `CERTIFICATE` block
holding the certificate's DER bytes. -/
def pemBlockForCert (c : Certificate) : Block :=
  { btype := "CERTIFICATE", payload := .certDER c }

/-- Modelled from the spec: `pemBlockForKey` (its source file is not among
the provided sources; only its caller `WriteKey` is).  Per the spec, the key
is PEM-encoded in its native marshalled form under a label reflecting its
algorithm: `RSA PRIVATE KEY` for RSA keys, `EC PRIVATE KEY` for
elliptic-curve keys; a nil or unsupported key cannot be marshalled. -/
def pemBlockForKey : Option PrivateKey → Except String Block
  | some (.rsa bits r) => .ok { btype := "RSA PRIVATE KEY", payload := .rsaDER bits r }
  | some (.ec bits r) => .ok { btype := "EC PRIVATE KEY", payload := .ecDER bits r }
  | none => .error "unsupported private key type"

/-- The PEM block `pemBlockForKey` produces for a supported key. -/
def keyBlock : PrivateKey → Block
  | .rsa bits r => { btype := "RSA PRIVATE KEY", payload := .rsaDER bits r }
  | .ec bits r => { btype := "EC PRIVATE KEY", payload := .ecDER bits r }

/-- Embedding of `Pair.WriteCert` (crtauth/pair.go), with the writer being
an open file of the modelled filesystem.  A nil `Cert` faults in Go when its
`Raw` bytes are read; the fault is modelled as an error result. -/
def Pair.WriteCert (p : Pair) (fs : FS) (path : String) :
    Except String Unit × FS :=
  match p.Cert with
  | none => (.error "runtime error: invalid memory address or nil pointer dereference", fs)
  | some c =>
    match fs.appendBlock path (pemBlockForCert c) with
    | .error e => (.error ("failed to write certificate as PEM: " ++ e), fs)
    | .ok fs => (.ok (), fs)

/-- Embedding of `Pair.WriteKey` (crtauth/pair.go), with the writer being an
open file of the modelled filesystem. -/
def Pair.WriteKey (p : Pair) (fs : FS) (path : String) :
    Except String Unit × FS :=
  match pemBlockForKey p.Key with
  | .error e => (.error ("failed to marshal private key: " ++ e), fs)
  | .ok b =>
    match fs.appendBlock path b with
    | .error e => (.error ("failed to write key: " ++ e), fs)
    | .ok fs => (.ok (), fs)

/-- Embedding of `Pair.WriteFiles` (crtauth/pair.go): create/truncate the
certificate file (dirs 0700, file 0644) and write the certificate, then the
key file (dirs 0700, file 0600) and the key, then run the extra
permission-tightening pass on the key file. -/
def Pair.WriteFiles (p : Pair) (goos : String) (fs : FS)
    (certPath keyPath : String) : Except String Unit × FS :=
  match fs.mkdirAndCreateFile certPath 0o700 0o644 with
  | .error e => (.error ("failed to create cert file " ++ certPath ++ ": " ++ e), fs)
  | .ok fs =>
    match p.WriteCert fs certPath with
    | (.error e, fs) => (.error ("failed to write to cert file " ++ certPath ++ ": " ++ e), fs)
    | (.ok _, fs) =>
      match fs.mkdirAndCreateFile keyPath 0o700 0o600 with
      | .error e => (.error ("failed to create key file " ++ keyPath ++ ": " ++ e), fs)
      | .ok fs =>
        match p.WriteKey fs keyPath with
        | (.error e, fs) => (.error ("failed to write to key file " ++ keyPath ++ ": " ++ e), fs)
        | (.ok _, fs) =>
          match fs.restrictKeyPermissions goos keyPath with
          | .error e =>
            (.error ("failed to restrict permissions to " ++ keyPath ++ " file: " ++ e), fs)
          | .ok fs => (.ok (), fs)

/-- Embedding of `Pair.LoadFiles` (crtauth/pair.go): open and load the
certificate file, then open and load the key file.  `os.Open` fails when the
file does not exist.  Note the Go receiver is mutated step by step, so the
certificate loaded by the first step stays in the pair even when the second
step fails. -/
def Pair.LoadFiles (p : Pair) (fs : FS) (certPath keyPath : String) :
    Except String Unit × Pair :=
  match fs.files certPath with
  | none => (.error ("failed opening cert file " ++ certPath ++ ": file does not exist"), p)
  | some certFile =>
    match p.LoadCert certFile.blocks with
    | (.error e, p) => (.error e, p)
    | (.ok _, p) =>
      match fs.files keyPath with
      | none => (.error ("failed opening key file " ++ keyPath ++ ": file does not exist"), p)
      | some keyFile =>
        match p.LoadKey keyFile.blocks with
        | (.error e, p) => (.error e, p)
        | (.ok _, p) => (.ok (), p)

/-- Models Go `x509.CreateCertificate` followed by `x509.ParseCertificate`,
at the level of the fields this package uses: the produced certificate takes
every field from the template except the issuer, which always comes from the
parent certificate's subject.  Like the real function it requires a serial
number in the template and usable public/signing keys. -/
def createCertificate (tmpl parent : Certificate) (pub : Option PublicKey)
    (signKey : Option PrivateKey) : Except String Certificate :=
  if tmpl.SerialNumber = none then
    .error "x509: no SerialNumber given"
  else if pub = none then
    .error "x509: unsupported public key type"
  else if signKey = none then
    .error "x509: unsupported signing key type"
  else
    .ok { tmpl with Issuer := parent.Subject }

/-- Embedding of `Pair.SignWith` (crtauth/pair.go) in the configuration
`p.SignWith(p)`: receiver and parent are the identical instance, so the Go
pointer-equality test `p == parent` is true and every field write through
either pointer lands on the same certificate.  The receiver's certificate is
mutated (issuer, is-CA, key usages) before signing, so those writes persist
even when the signing step fails. -/
def Pair.SignWithSelf (p : Pair) : Except String Unit × Pair :=
  if p.Cert = none ∨ p.Key = none then
    (.error "can't sign certificate with incomplete parent pair", p)
  else
    match p.Cert with
    | none => (.error "can't sign certificate with incomplete parent pair", p)
    | some c0 =>
      let c1 := { c0 with Issuer := c0.Subject }
      let c2 := { c1 with
        IsCA := true
        KeyUsage := c1.KeyUsage |||
          (KeyUsageDigitalSignature ||| KeyUsageCertSign ||| KeyUsageCRLSign) }
      match createCertificate c2 c2 (publicKey p.Key) p.Key with
      | .error e =>
        (.error ("failed to create signed certificate: " ++ e), { p with Cert := some c2 })
      | .ok cert => (.ok (), { p with Cert := some cert })

/-- Default certificate file name of a CA (crtauth/... `RootCertFileName`). -/
def RootCertFileName : String := "root.crt"
/-- Default key file name of a CA (crtauth/... `RootKeyFileName`). -/
def RootKeyFileName : String := "root.key"

/-- Embedding of the `CA` structure. -/
structure CA where
  Pair : Pair
  CertFileName : String
  KeyFileName : String
deriving DecidableEq

/-- Embedding of `New`: a CA with an empty pair and the default file
names. -/
def CA.New : CA :=
  { Pair := {}, CertFileName := RootCertFileName, KeyFileName := RootKeyFileName }

/-- Embedding of `CA.Init`: build a CA pair, create the directory, self-sign
the pair, write both files, and only then store the pair in the CA. -/
def CA.Init (ca : CA) (env : Env) (fs : FS) (t : Template) (dir : String) :
    Except String Unit × CA × FS :=
  match NewCAPair env t with
  | .error e => (.error e, ca, fs)
  | .ok pair =>
    match fs.mkdirAll dir 0o700 with
    | .error e => (.error ("failed to create CA directory " ++ dir ++ ": " ++ e), ca, fs)
    | .ok fs =>
      match pair.SignWithSelf with
      | (.error e, _) => (.error ("failed to sign certificate with CA: " ++ e), ca, fs)
      | (.ok _, pair) =>
        let certPath := joinPath dir ca.CertFileName
        let keyPath := joinPath dir ca.KeyFileName
        match pair.WriteFiles env.goos fs certPath keyPath with
        | (.error e, fs) => (.error ("failed to write CA pair to files: " ++ e), ca, fs)
        | (.ok _, fs) => (.ok (), { ca with Pair := pair }, fs)

/-- Embedding of `CA.Load`: load the pair from the two conventionally named
files in the directory (the Go method mutates `ca.Pair` through its
pointer). -/
def CA.Load (ca : CA) (fs : FS) (dir : String) : Except String Unit × CA :=
  let certPath := joinPath dir ca.CertFileName
  let keyPath := joinPath dir ca.KeyFileName
  match ca.Pair.LoadFiles fs certPath keyPath with
  | (r, p) => (r, { ca with Pair := p })

/-- Embedding of `isValidKeySize` (cmd/util.go): the switch over the eight
supported key-size tokens. -/
def isValidKeySize (keySize : String) : Bool :=
  if keySize = "P224" then true
  else if keySize = "P256" then true
  else if keySize = "P384" then true
  else if keySize = "P521" then true
  else if keySize = "1024" then true
  else if keySize = "2048" then true
  else if keySize = "3072" then true
  else if keySize = "4096" then true
  else false

/-- Embedding of `parseKeyBits` (cmd/util.go): validate the token, strip a
leading `P` (checked case-insensitively), and convert the remainder with
`strconv.Atoi`. -/
def parseKeyBits (keySize : String) : Except String Int :=
  if !isValidKeySize keySize then
    .error ("invalid key size '" ++ keySize ++ "'")
  else
    let keySize := if strHasPrefixP (strToUpper keySize) then strDrop keySize 1 else keySize
    match atoi keySize with
    | none => .error ("key size '" ++ keySize ++ "' cannot be converted to integer value")
    | some numBits => .ok numBits

/-- The key-algorithm selection path of the CLI commands (cmd/init.go,
cmd/generate.go): `parseKeyBits` runs first and aborts on error; only on
success does the flow reach `genPrivKey` (through `NewPair`). -/
def selectKeyAlgorithm (keyRand : Option Nat) (keySize : String) :
    Except String PrivateKey :=
  match parseKeyBits keySize with
  | .error e => .error ("Bad key size: " ++ e)
  | .ok bits => genPrivKey keyRand bits

/-- Filesystem update: set one file. -/
def FS.withFile (fs : FS) (name : String) (f : FileInfo) : FS :=
  { fs with files := fun q => if q = name then some f else fs.files q }

/-- Filesystem update: record one directory as present. -/
def FS.withDir (fs : FS) (dir : String) : FS :=
  { fs with dirs := fun q => if q = dir then true else fs.dirs q }

/-- A concrete IP classifier for concrete checks: accepts the two literal
addresses of the spec's test vector. -/
def sampleParseIP : String → Option IP := fun h =>
  if h = "10.0.0.1" then some [10, 0, 0, 1]
  else if h = "::1" then some [0, 0, 0, 0, 0, 0, 0, 0, 0, 0, 0, 0, 0, 0, 0, 1]
  else none

/-- A concrete environment for concrete checks. -/
def sampleEnv : Env :=
  { now := 0, serialRand := some 5, keyRand := some 7,
    parseIP := sampleParseIP, goos := "linux" }

/-- The empty filesystem with no injected failures. -/
def emptyFS : FS :=
  { files := fun _ => none, dirs := fun _ => false, failPaths := fun _ => false }

/-- A filesystem holding a readable CA certificate at `ca/root.crt` and no
key file. -/
def certOnlyFS : FS :=
  { emptyFS with
    files := fun q =>
      if q = "ca/root.crt" then
        some ⟨[⟨"CERTIFICATE", .certDER { SerialNumber := some 9 }⟩], 0o644, false⟩
      else none }

/-- A concrete complete pair for concrete checks. -/
def samplePair : Pair :=
  { Cert := some
      { SerialNumber := some 3
        Subject := { Organization := ["Acme"], CommonName := "Root" }
        BasicConstraintsValid := true }
    Key := some (.ec 256 2)
    KeyBits := 256 }

/-- The certificate `samplePair` carries after a successful self-sign. -/
def sampleSignedCert : Certificate :=
  { SerialNumber := some 3
    Subject := { Organization := ["Acme"], CommonName := "Root" }
    Issuer := { Organization := ["Acme"], CommonName := "Root" }
    BasicConstraintsValid := true
    IsCA := true
    KeyUsage := 97 }

/-! ## Theorems -/

/-- Helper: the classification loop appends, in input order, the
identifiers `parseIP` accepts to `IPAddresses` and the rest to `DNSNames`,
and touches no other field. -/
theorem classifyHosts_eq (parseIP : String → Option IP) (hs : List String)
    (c : Certificate) :
    classifyHosts parseIP c hs =
      { c with
        IPAddresses := c.IPAddresses ++ hs.filterMap parseIP
        DNSNames := c.DNSNames ++ hs.filter (fun h => (parseIP h).isNone) } := by
  induction hs generalizing c with
  | nil => simp [classifyHosts]
  | cons h t ih =>
    cases hp : parseIP h <;>
      simp [classifyHosts, hp, ih, List.filterMap_cons, List.filter_cons]

/-- C3: for every key-size token outside the supported set, the
key-algorithm selection path fails with the invalid-key-size error from
`parseKeyBits`, and the result of the selection path does not depend on the
random source — key generation never begins. -/
theorem C3_invalid_key_size (s : String) (keyRand : Option Nat)
    (h : s ∉ ["P224", "P256", "P384", "P521", "1024", "2048", "3072", "4096"]) :
    parseKeyBits s = .error ("invalid key size '" ++ s ++ "'") ∧
    selectKeyAlgorithm keyRand s =
      .error ("Bad key size: " ++ ("invalid key size '" ++ s ++ "'")) := by
  simp only [List.mem_cons, List.not_mem_nil, or_false, not_or] at h
  obtain ⟨h1, h2, h3, h4, h5, h6, h7, h8⟩ := h
  have hv : isValidKeySize s = false := by
    simp [isValidKeySize, h1, h2, h3, h4, h5, h6, h7, h8]
  refine ⟨?_, ?_⟩
  · simp [parseKeyBits, hv]
  · simp [selectKeyAlgorithm, parseKeyBits, hv]

/-- Witness for C3 at the token `P512`. -/
theorem C3_witness :
    "P512" ∉ ["P224", "P256", "P384", "P521", "1024", "2048", "3072", "4096"] ∧
    (parseKeyBits "P512" = .error ("invalid key size '" ++ "P512" ++ "'") ∧
     selectKeyAlgorithm (some 7) "P512" =
       .error ("Bad key size: " ++ ("invalid key size '" ++ "P512" ++ "'"))) :=
  ⟨by decide, C3_invalid_key_size "P512" (some 7) (by decide)⟩

/-- C6: the PEM readers return the result of parsing the first block whose
normalised label matches the expected type (`CERTIFICATE` for certificates;
`RSA PRIVATE KEY` or `EC PRIVATE KEY` for keys), skipping all other blocks;
they fail with the block-not-found error exactly when no block matches, and
with the parse error of the matching parser when the matching block's bytes
do not decode. -/
theorem C6_pem_readers_first_match :
    (∀ bs : List Block,
      readPEMCert bs =
        match bs.find? (fun b => normType b.btype == "CERTIFICATE") with
        | none => .error "CERTIFICATE block not found"
        | some b => parseCertificateBytes b.payload) ∧
    (∀ bs : List Block,
      readPEMKey bs =
        match bs.find? (fun b =>
            normType b.btype == "RSA PRIVATE KEY" ||
            normType b.btype == "EC PRIVATE KEY") with
        | none => .error "PRIVATE KEY block not found"
        | some b =>
          if normType b.btype == "RSA PRIVATE KEY" then
            parsePKCS1PrivateKey b.payload
          else
            parseECPrivateKey b.payload) := by
  constructor
  · intro bs
    induction bs with
    | nil => rfl
    | cons b rest ih =>
      cases hb : normType b.btype == "CERTIFICATE" with
      | true => simp [readPEMCert, List.find?, hb]
      | false => simp [readPEMCert, List.find?, hb, ih]
  · intro bs
    induction bs with
    | nil => rfl
    | cons b rest ih =>
      cases h1 : normType b.btype == "RSA PRIVATE KEY" with
      | true => simp [readPEMKey, List.find?, h1]
      | false =>
        cases h2 : normType b.btype == "EC PRIVATE KEY" with
        | true => simp [readPEMKey, List.find?, h1, h2]
        | false => simp [readPEMKey, List.find?, h1, h2, ih]

/-- C7: every host identifier accepted by the IP parser lands in the
IP-address list and every other one in the DNS-name list, each list in input
order. -/
theorem C7_host_classification (env : Env) (t : Template) (c : Certificate)
    (h : t.to509 env = .ok c) :
    c.IPAddresses = t.HostNames.filterMap env.parseIP ∧
    c.DNSNames = t.HostNames.filter (fun h => (env.parseIP h).isNone) := by
  cases hsr : env.serialRand with
  | none => simp [Template.to509, randSerial, hsr] at h
  | some s =>
    simp only [Template.to509, randSerial, hsr] at h
    injection h with h
    subst h
    split
    · rw [classifyHosts_eq]
      constructor <;> simp
    · rename_i hlen
      have hnil : t.HostNames = [] :=
        List.length_eq_zero.mp (Nat.eq_zero_of_not_pos hlen)
      simp [hnil]

/-- Witness for C7 at the spec's test vector
`["10.0.0.1", "db.internal", "::1"]`. -/
theorem C7_witness :
    (Template.to509 sampleEnv
        { NewTemplate with HostNames := ["10.0.0.1", "db.internal", "::1"] } =
      .ok
        { SerialNumber := some 5
          Subject := { Organization := [""], CommonName := "" }
          NotBefore := 0
          NotAfter := 31536000000000000
          BasicConstraintsValid := true
          IPAddresses := [[10, 0, 0, 1], [0, 0, 0, 0, 0, 0, 0, 0, 0, 0, 0, 0, 0, 0, 0, 1]]
          DNSNames := ["db.internal"] }) ∧
    ([[10, 0, 0, 1], [0, 0, 0, 0, 0, 0, 0, 0, 0, 0, 0, 0, 0, 0, 0, 1]] :
        List IP) =
      (["10.0.0.1", "db.internal", "::1"].filterMap sampleEnv.parseIP) ∧
    ["db.internal"] =
      (["10.0.0.1", "db.internal", "::1"].filter
        (fun h => (sampleEnv.parseIP h).isNone)) := by
  have h :
      Template.to509 sampleEnv
        { NewTemplate with HostNames := ["10.0.0.1", "db.internal", "::1"] } =
      .ok
        { SerialNumber := some 5
          Subject := { Organization := [""], CommonName := "" }
          NotBefore := 0
          NotAfter := 31536000000000000
          BasicConstraintsValid := true
          IPAddresses := [[10, 0, 0, 1], [0, 0, 0, 0, 0, 0, 0, 0, 0, 0, 0, 0, 0, 0, 0, 1]]
          DNSNames := ["db.internal"] } := by decide
  have h2 := C7_host_classification _ _ _ h
  exact ⟨h, h2.1.symm, h2.2.symm⟩

/-- 64-bit wrap is the identity inside the signed 64-bit range. -/
theorem wrap64_eq_self {x : Int} (h1 : -int64Half ≤ x) (h2 : x < int64Half) :
    wrap64 x = x := by
  unfold int64Half at h1 h2
  unfold wrap64 int64Half int64Size
  omega

/-- Up to 106751 validity days the nanosecond duration stays inside the
64-bit range, so the wrap is the identity. -/
theorem daysToDuration_small {days : Int} (h1 : 0 < days) (h2 : days ≤ 106751) :
    daysToDuration days = days * 86400000000000 := by
  unfold daysToDuration
  rw [wrap64_eq_self (x := days * 24) (by unfold int64Half; omega)
        (by unfold int64Half; omega),
      wrap64_eq_self (by unfold int64Half; omega) (by unfold int64Half; omega)]
  ring

/-- Helper: the validity window a successful `to509` writes into the
descriptor. -/
theorem to509_ok_fields (env : Env) (t : Template) (c : Certificate)
    (h : t.to509 env = .ok c) :
    c.NotBefore = env.now ∧
    c.NotAfter = env.now + daysToDuration t.ValidForDays := by
  cases hsr : env.serialRand with
  | none => simp [Template.to509, randSerial, hsr] at h
  | some s =>
    simp only [Template.to509, randSerial, hsr] at h
    injection h with h
    subst h
    split
    · rw [classifyHosts_eq]
      exact ⟨rfl, rfl⟩
    · exact ⟨rfl, rfl⟩

/-- C8 (amended): not-before is the generation time and not-after is
not-before plus the Go `time.Duration` of validity-days — validity-days ×
24h wrapped to a signed 64-bit nanosecond count; whenever validity-days is
positive and at most 106751 (no overflow), not-after is exactly
validity-days whole days after not-before and lies strictly in the
future. -/
theorem C8_validity_window (env : Env) (t : Template) (c : Certificate)
    (h : t.to509 env = .ok c) :
    c.NotBefore = env.now ∧
    c.NotAfter = c.NotBefore + daysToDuration t.ValidForDays ∧
    (0 < t.ValidForDays → t.ValidForDays ≤ 106751 →
      c.NotAfter = c.NotBefore + t.ValidForDays * 86400000000000 ∧
      c.NotBefore < c.NotAfter) := by
  obtain ⟨hb, ha⟩ := to509_ok_fields env t c h
  refine ⟨hb, by rw [ha, hb], ?_⟩
  intro h1 h2
  rw [ha, hb, daysToDuration_small h1 h2]
  constructor
  · rfl
  · omega

/-- Witness for C8 at the default template (365 days). -/
theorem C8_witness :
    (Template.to509 sampleEnv NewTemplate =
      .ok
        { SerialNumber := some 5
          Subject := { Organization := [""], CommonName := "" }
          NotBefore := 0
          NotAfter := 31536000000000000
          BasicConstraintsValid := true }) ∧
    (0 : Int) <
      (Certificate.NotAfter
        { SerialNumber := some 5
          Subject := { Organization := [""], CommonName := "" }
          NotBefore := 0
          NotAfter := 31536000000000000
          BasicConstraintsValid := true }) := by
  have h : Template.to509 sampleEnv NewTemplate =
      .ok
        { SerialNumber := some 5
          Subject := { Organization := [""], CommonName := "" }
          NotBefore := 0
          NotAfter := 31536000000000000
          BasicConstraintsValid := true } := by decide
  have h2 := C8_validity_window sampleEnv NewTemplate _ h
  exact ⟨h, (h2.2.2 (by decide) (by decide)).2⟩

/-- C8 as literally stated fails on the code: at 200000 validity days
(valid per the spec's "validity period > 0" invariant) the 64-bit
nanosecond duration overflows, not-after is NOT not-before + 200000 × 24h,
and the certificate expires 37 years before it begins. -/
theorem C8_counterexample :
    (0 : Int) < 200000 ∧
    (Template.to509 { sampleEnv with serialRand := some 1 }
        { NewTemplate with ValidForDays := 200000 }).map
      (fun c =>
        (decide (c.NotAfter < c.NotBefore),
         decide (c.NotAfter = c.NotBefore + 200000 * 86400000000000))) =
      .ok (true, false) := by
  exact ⟨by decide, by decide⟩

/-- C1 (documenting the code bug): when descriptor construction fails —
here the serial-number draw fails — `NewPair` does not propagate the
`to509` error; it silently substitutes the empty certificate and returns a
"valid" pair. -/
theorem C1_template_error_swallowed :
    Template.to509 { sampleEnv with serialRand := none } NewTemplate =
      .error "To509() failed: rand: entropy source exhausted" ∧
    NewPair { sampleEnv with serialRand := none } NewTemplate =
      .ok { Cert := some {}, Key := some (.ec 256 7), KeyBits := 256 } := by
  exact ⟨by decide, by decide⟩

/-- C2 (amended): `CA.Load` on a directory whose certificate file is
readable and parses but whose key file is missing fails with the not-found
error and leaves the pair's `Key` untouched — but the `Cert` field has
already been overwritten with the loaded certificate. -/
theorem C2_load_missing_key (ca : CA) (fs : FS) (dir : String)
    (f : FileInfo) (c : Certificate)
    (hcert : fs.files (joinPath dir ca.CertFileName) = some f)
    (hparse : readPEMCert f.blocks = .ok c)
    (hkey : fs.files (joinPath dir ca.KeyFileName) = none) :
    (ca.Load fs dir).1 =
      .error ("failed opening key file " ++ joinPath dir ca.KeyFileName ++
        ": file does not exist") ∧
    (ca.Load fs dir).2.Pair.Key = ca.Pair.Key ∧
    (ca.Load fs dir).2.Pair.Cert = some c := by
  simp [CA.Load, Pair.LoadFiles, Pair.LoadCert, hcert, hparse, hkey]

/-- C2 as stated fails on the code: with a readable certificate file and a
missing key file, `CA.Load` errors but HAS modified the pair's `Cert`
field. -/
theorem C2_counterexample :
    (CA.New.Load certOnlyFS "ca").1 ≠ .ok () ∧
    (CA.New.Load certOnlyFS "ca").2.Pair.Cert ≠ CA.New.Pair.Cert := by
  exact ⟨by decide, by decide⟩

/-- Witness for C2 (amended) at the concrete cert-only filesystem. -/
theorem C2_witness :
    (CA.New.Load certOnlyFS "ca").1 =
      .error ("failed opening key file " ++ joinPath "ca" CA.New.KeyFileName ++
        ": file does not exist") ∧
    (CA.New.Load certOnlyFS "ca").2.Pair.Key = CA.New.Pair.Key ∧
    (CA.New.Load certOnlyFS "ca").2.Pair.Cert = some { SerialNumber := some 9 } :=
  C2_load_missing_key CA.New certOnlyFS "ca"
    ⟨[⟨"CERTIFICATE", .certDER { SerialNumber := some 9 }⟩], 0o644, false⟩
    { SerialNumber := some 9 } (by decide) (by decide) (by decide)

/-- C10: the three loaders write only `Cert`/`Key` and never `KeyBits`, so
a CA created by `New` and populated by `Load` keeps `KeyBits = 0` no matter
what was on disk. -/
theorem C10_keybits_frame :
    (∀ (p : Pair) (bs : List Block), (p.LoadCert bs).2.KeyBits = p.KeyBits) ∧
    (∀ (p : Pair) (bs : List Block), (p.LoadKey bs).2.KeyBits = p.KeyBits) ∧
    (∀ (p : Pair) (fs : FS) (cp kp : String),
      (Pair.LoadFiles p fs cp kp).2.KeyBits = p.KeyBits) ∧
    (∀ (fs : FS) (dir : String), (CA.New.Load fs dir).2.Pair.KeyBits = 0) := by
  have hc : ∀ (p : Pair) (bs : List Block), (p.LoadCert bs).2.KeyBits = p.KeyBits := by
    intro p bs
    unfold Pair.LoadCert
    cases readPEMCert bs <;> rfl
  have hk : ∀ (p : Pair) (bs : List Block), (p.LoadKey bs).2.KeyBits = p.KeyBits := by
    intro p bs
    unfold Pair.LoadKey
    cases readPEMKey bs <;> rfl
  have hf : ∀ (p : Pair) (fs : FS) (cp kp : String),
      (Pair.LoadFiles p fs cp kp).2.KeyBits = p.KeyBits := by
    intro p fs cp kp
    unfold Pair.LoadFiles
    cases hcf : fs.files cp with
    | none => rfl
    | some cf =>
      dsimp only
      have e1 := hc p cf.blocks
      rcases hlc : p.LoadCert cf.blocks with ⟨r1, p1⟩
      rw [hlc] at e1
      cases r1 with
      | error e => exact e1
      | ok u =>
        dsimp only
        cases hkf : fs.files kp with
        | none => exact e1
        | some kf =>
          dsimp only
          have e2 := hk p1 kf.blocks
          rcases hlk : p1.LoadKey kf.blocks with ⟨r2, p2⟩
          rw [hlk] at e2
          cases r2 with
          | error e => exact e2.trans e1
          | ok u2 => exact e2.trans e1
  refine ⟨hc, hk, hf, ?_⟩
  intro fs dir
  unfold CA.Load
  dsimp only
  have h0 := hf CA.New.Pair fs (joinPath dir CA.New.CertFileName)
    (joinPath dir CA.New.KeyFileName)
  rcases hlf : CA.New.Pair.LoadFiles fs (joinPath dir CA.New.CertFileName)
      (joinPath dir CA.New.KeyFileName) with ⟨r, p⟩
  rw [hlf] at h0
  simpa [CA.New] using h0

/-- Helper: `(x ||| m) &&& m = m` — or-ing a mask in guarantees the mask's
bits are set. -/
theorem or_and_self_mask (x m : Nat) : (x ||| m) &&& m = m := by
  apply Nat.eq_of_testBit_eq
  intro i
  simp only [Nat.testBit_land, Nat.testBit_lor]
  cases hx : x.testBit i <;> cases hm : m.testBit i <;> simp

/-- C4: a successful self-sign (`p.SignWith(p)`) yields a certificate with
is-CA true, the digital-signature, certificate-signing and CRL-signing key
usages set, and issuer equal to subject. -/
theorem C4_self_sign (p p' : Pair) (c : Certificate)
    (h : p.SignWithSelf = (.ok (), p')) (hc : p'.Cert = some c) :
    c.IsCA = true ∧
    c.KeyUsage &&&
        (KeyUsageDigitalSignature ||| KeyUsageCertSign ||| KeyUsageCRLSign) =
      (KeyUsageDigitalSignature ||| KeyUsageCertSign ||| KeyUsageCRLSign) ∧
    c.Issuer = c.Subject := by
  simp only [Pair.SignWithSelf] at h
  split at h
  · simp at h
  · split at h
    · simp at h
    · rename_i c0 heq0
      split at h
      · simp at h
      · rename_i cert heqC
        have hp' : { p with Cert := some cert } = p' := by
          have h2 := congrArg Prod.snd h
          simpa using h2
        subst hp'
        simp only [] at hc
        unfold createCertificate at heqC
        split_ifs at heqC
        cases heqC
        simp only [Option.some.injEq] at hc
        subst hc
        refine ⟨rfl, ?_, rfl⟩
        exact or_and_self_mask _ _

/-- Witness for C4 at a concrete complete pair. -/
theorem C4_witness :
    samplePair.SignWithSelf =
      (.ok (), { samplePair with Cert := some sampleSignedCert }) ∧
    (sampleSignedCert.IsCA = true ∧
     sampleSignedCert.KeyUsage &&&
         (KeyUsageDigitalSignature ||| KeyUsageCertSign ||| KeyUsageCRLSign) =
       (KeyUsageDigitalSignature ||| KeyUsageCertSign ||| KeyUsageCRLSign) ∧
     sampleSignedCert.Issuer = sampleSignedCert.Subject) := by
  have h : samplePair.SignWithSelf =
      (.ok (), { samplePair with Cert := some sampleSignedCert }) := by decide
  exact ⟨h, C4_self_sign samplePair _ sampleSignedCert h (by decide)⟩

/-- Helper: `CA.Init` either succeeds or leaves the CA's `Pair` field
untouched. -/
theorem init_ok_or_pair_unchanged (ca : CA) (env : Env) (fs : FS)
    (t : Template) (dir : String) :
    (ca.Init env fs t dir).1 = .ok () ∨
    (ca.Init env fs t dir).2.1.Pair = ca.Pair := by
  simp only [CA.Init]
  split
  · exact Or.inr rfl
  · split
    · exact Or.inr rfl
    · split
      · exact Or.inr rfl
      · split
        · exact Or.inr rfl
        · exact Or.inl rfl

/-- C9: whenever `CA.Init` returns an error — from pair creation, directory
creation, self-signing or persistence — the CA's `Pair` field retains the
value it held before the call. -/
theorem C9_init_error_preserves_pair (ca : CA) (env : Env) (fs : FS)
    (t : Template) (dir : String)
    (h : (ca.Init env fs t dir).1 ≠ .ok ()) :
    (ca.Init env fs t dir).2.1.Pair = ca.Pair :=
  (init_ok_or_pair_unchanged ca env fs t dir).resolve_left h

/-- Witness for C9: a failing key generation makes `Init` fail and the CA's
pair survives unchanged. -/
theorem C9_witness :
    (CA.New.Init { sampleEnv with keyRand := none } emptyFS NewTemplate
        "pki").1 ≠ .ok () ∧
    (CA.New.Init { sampleEnv with keyRand := none } emptyFS NewTemplate
        "pki").2.1.Pair = CA.New.Pair :=
  ⟨by decide,
   C9_init_error_preserves_pair CA.New _ emptyFS NewTemplate "pki" (by decide)⟩

/-- Filesystems with identical fields are identical. -/
theorem FS.eq_of_fields {a b : FS} (hf : a.files = b.files)
    (hd : a.dirs = b.dirs) (hp : a.failPaths = b.failPaths) : a = b := by
  cases a; cases b; simp_all

theorem withDir_dirs_self (fs : FS) (d : String) : (fs.withDir d).dirs d = true := by
  simp [FS.withDir]

theorem withDir_dirs_of (fs : FS) (d q : String) (h : fs.dirs q = true) :
    (fs.withDir d).dirs q = true := by
  unfold FS.withDir
  by_cases hq : q = d <;> simp [hq, h]

theorem withFile_dirs (fs : FS) (n : String) (f : FileInfo) :
    (fs.withFile n f).dirs = fs.dirs := rfl

theorem withFile_files_self (fs : FS) (n : String) (f : FileInfo) :
    (fs.withFile n f).files n = some f := by
  simp [FS.withFile]

theorem withFile_files_ne (fs : FS) (n : String) (f : FileInfo) (q : String)
    (h : q ≠ n) : (fs.withFile n f).files q = fs.files q := by
  simp [FS.withFile, h]

theorem withDir_files (fs : FS) (d : String) : (fs.withDir d).files = fs.files := rfl

/-- `ensureDirExists` without an injected failure: the directory is present
afterwards, everything else is untouched. -/
theorem ensureDirExists_of_no_fail (fs : FS) (dir : String) (perm : Nat)
    (h : fs.failPaths dir = false) :
    fs.ensureDirExists dir perm = .ok (fs.withDir dir) := by
  unfold FS.ensureDirExists FS.mkdirAll FS.withDir
  by_cases hd : fs.dirs dir = true
  · simp only [hd, if_true]
    congr 1
    refine FS.eq_of_fields rfl ?_ rfl
    funext q
    by_cases hq : q = dir <;> simp [hq, hd]
  · rw [Bool.not_eq_true] at hd
    simp [hd, h]

/-- `openFileCreate` on a fresh path without an injected failure creates an
empty unrestricted file with the requested permission bits. -/
theorem openFileCreate_fresh (fs : FS) (name : String) (perm : Nat)
    (hfail : fs.failPaths name = false) (hfresh : fs.files name = none) :
    fs.openFileCreate name perm = .ok (fs.withFile name ⟨[], perm, false⟩) := by
  unfold FS.openFileCreate FS.withFile
  simp [hfail, hfresh]

/-- `mkdirAndCreateFile` on a fresh path: parent directory recorded, file
created empty with the requested permission bits. -/
theorem mkdirAndCreateFile_fresh (fs : FS) (name : String) (dp fp : Nat)
    (hd : fs.failPaths (dirOf name) = false)
    (hn : fs.failPaths name = false)
    (hfresh : fs.files name = none) :
    fs.mkdirAndCreateFile name dp fp =
      .ok ((fs.withDir (dirOf name)).withFile name ⟨[], fp, false⟩) := by
  unfold FS.mkdirAndCreateFile
  rw [ensureDirExists_of_no_fail fs (dirOf name) dp hd]
  exact openFileCreate_fresh _ _ _ hn hfresh

/-- `appendBlock` on an open file appends to its contents. -/
theorem appendBlock_existing (fs : FS) (name : String) (f : FileInfo) (b : Block)
    (h : fs.files name = some f) :
    fs.appendBlock name b =
      .ok (fs.withFile name { f with blocks := f.blocks ++ [b] }) := by
  unfold FS.appendBlock FS.withFile
  simp [h]

/-- C5: a `WriteFiles` call on fresh paths with no injected I/O failures
succeeds: the parent directories of both files are recorded, the
certificate file is created with permission bits 0644 and stays outside the
ACL-tightening pass, and the key file is created with permission bits 0600;
the extra tightening pass applies to the key file exactly on Windows and is
a no-op on every other platform. -/
theorem C5_write_files (p : Pair) (c : Certificate) (k : PrivateKey)
    (goos : String) (fs : FS) (certPath keyPath : String)
    (hcert : p.Cert = some c) (hkey : p.Key = some k)
    (hne : keyPath ≠ certPath)
    (hf1 : fs.files certPath = none) (hf2 : fs.files keyPath = none)
    (hp1 : fs.failPaths (dirOf certPath) = false)
    (hp2 : fs.failPaths certPath = false)
    (hp3 : fs.failPaths (dirOf keyPath) = false)
    (hp4 : fs.failPaths keyPath = false) :
    (p.WriteFiles goos fs certPath keyPath).1 = .ok () ∧
    ((p.WriteFiles goos fs certPath keyPath).2.dirs (dirOf certPath) = true ∧
     (p.WriteFiles goos fs certPath keyPath).2.dirs (dirOf keyPath) = true) ∧
    ((p.WriteFiles goos fs certPath keyPath).2.files certPath).map FileInfo.perm =
      some 0o644 ∧
    ((p.WriteFiles goos fs certPath keyPath).2.files certPath).map
        FileInfo.restricted = some false ∧
    ((p.WriteFiles goos fs certPath keyPath).2.files keyPath).map FileInfo.perm =
      some 0o600 ∧
    ((p.WriteFiles goos fs certPath keyPath).2.files keyPath).map
        FileInfo.restricted = some (goos == "windows") := by
  have hne' : certPath ≠ keyPath := Ne.symm hne
  have hkb : pemBlockForKey p.Key = .ok (keyBlock k) := by
    rw [hkey]; cases k <;> rfl
  have e1 : fs.mkdirAndCreateFile certPath 0o700 0o644 =
      .ok ((fs.withDir (dirOf certPath)).withFile certPath ⟨[], 0o644, false⟩) :=
    mkdirAndCreateFile_fresh _ _ _ _ hp1 hp2 hf1
  have e2 : ((fs.withDir (dirOf certPath)).withFile certPath
        ⟨[], 0o644, false⟩).appendBlock certPath (pemBlockForCert c) =
      .ok (((fs.withDir (dirOf certPath)).withFile certPath
        ⟨[], 0o644, false⟩).withFile certPath
          ⟨[pemBlockForCert c], 0o644, false⟩) :=
    appendBlock_existing _ _ _ _ (withFile_files_self _ _ _)
  have hkf : (((fs.withDir (dirOf certPath)).withFile certPath
        ⟨[], 0o644, false⟩).withFile certPath
          ⟨[pemBlockForCert c], 0o644, false⟩).files keyPath = none := by
    rw [withFile_files_ne _ _ _ _ hne, withFile_files_ne _ _ _ _ hne]
    exact hf2
  have e3 : ((((fs.withDir (dirOf certPath)).withFile certPath
        ⟨[], 0o644, false⟩).withFile certPath
          ⟨[pemBlockForCert c], 0o644, false⟩)).mkdirAndCreateFile keyPath
        0o700 0o600 =
      .ok ((((((fs.withDir (dirOf certPath)).withFile certPath
        ⟨[], 0o644, false⟩).withFile certPath
          ⟨[pemBlockForCert c], 0o644, false⟩)).withDir
            (dirOf keyPath)).withFile keyPath ⟨[], 0o600, false⟩) :=
    mkdirAndCreateFile_fresh _ _ _ _ hp3 hp4 hkf
  have e4 : ((((((fs.withDir (dirOf certPath)).withFile certPath
        ⟨[], 0o644, false⟩).withFile certPath
          ⟨[pemBlockForCert c], 0o644, false⟩)).withDir
            (dirOf keyPath)).withFile keyPath ⟨[], 0o600, false⟩).appendBlock
        keyPath (keyBlock k) =
      .ok (((((((fs.withDir (dirOf certPath)).withFile certPath
        ⟨[], 0o644, false⟩).withFile certPath
          ⟨[pemBlockForCert c], 0o644, false⟩)).withDir
            (dirOf keyPath)).withFile keyPath ⟨[], 0o600, false⟩).withFile
              keyPath ⟨[keyBlock k], 0o600, false⟩) :=
    appendBlock_existing _ _ _ _ (withFile_files_self _ _ _)
  by_cases hw : goos = "windows"
  · have e5 : (((((((fs.withDir (dirOf certPath)).withFile certPath
          ⟨[], 0o644, false⟩).withFile certPath
            ⟨[pemBlockForCert c], 0o644, false⟩)).withDir
              (dirOf keyPath)).withFile keyPath
                ⟨[], 0o600, false⟩).withFile keyPath
                  ⟨[keyBlock k], 0o600, false⟩).restrictKeyPermissions goos
          keyPath =
        .ok ((((((((fs.withDir (dirOf certPath)).withFile certPath
          ⟨[], 0o644, false⟩).withFile certPath
            ⟨[pemBlockForCert c], 0o644, false⟩)).withDir
              (dirOf keyPath)).withFile keyPath
                ⟨[], 0o600, false⟩).withFile keyPath
                  ⟨[keyBlock k], 0o600, false⟩).withFile keyPath
                    ⟨[keyBlock k], 0o600, true⟩) := by
      unfold FS.restrictKeyPermissions FS.withFile
      simp [hw]
    have hmain : p.WriteFiles goos fs certPath keyPath =
        (.ok (), (((((((fs.withDir (dirOf certPath)).withFile certPath
          ⟨[], 0o644, false⟩).withFile certPath
            ⟨[pemBlockForCert c], 0o644, false⟩)).withDir
              (dirOf keyPath)).withFile keyPath
                ⟨[], 0o600, false⟩).withFile keyPath
                  ⟨[keyBlock k], 0o600, false⟩).withFile keyPath
                    ⟨[keyBlock k], 0o600, true⟩) := by
      simp only [Pair.WriteFiles, Pair.WriteCert, Pair.WriteKey, hcert, hkb,
        e1, e2, e3, e4, e5]
    rw [hmain]
    refine ⟨rfl, ⟨?_, ?_⟩, ?_, ?_, ?_, ?_⟩ <;>
      simp [FS.withFile, FS.withDir, hne', hw]
  · have e5 : (((((((fs.withDir (dirOf certPath)).withFile certPath
          ⟨[], 0o644, false⟩).withFile certPath
            ⟨[pemBlockForCert c], 0o644, false⟩)).withDir
              (dirOf keyPath)).withFile keyPath
                ⟨[], 0o600, false⟩).withFile keyPath
                  ⟨[keyBlock k], 0o600, false⟩).restrictKeyPermissions goos
          keyPath =
        .ok (((((((fs.withDir (dirOf certPath)).withFile certPath
          ⟨[], 0o644, false⟩).withFile certPath
            ⟨[pemBlockForCert c], 0o644, false⟩)).withDir
              (dirOf keyPath)).withFile keyPath
                ⟨[], 0o600, false⟩).withFile keyPath
                  ⟨[keyBlock k], 0o600, false⟩) := by
      unfold FS.restrictKeyPermissions
      simp [hw]
    have hmain : p.WriteFiles goos fs certPath keyPath =
        (.ok (), ((((((fs.withDir (dirOf certPath)).withFile certPath
          ⟨[], 0o644, false⟩).withFile certPath
            ⟨[pemBlockForCert c], 0o644, false⟩)).withDir
              (dirOf keyPath)).withFile keyPath
                ⟨[], 0o600, false⟩).withFile keyPath
                  ⟨[keyBlock k], 0o600, false⟩) := by
      simp only [Pair.WriteFiles, Pair.WriteCert, Pair.WriteKey, hcert, hkb,
        e1, e2, e3, e4, e5]
    rw [hmain]
    refine ⟨rfl, ⟨?_, ?_⟩, ?_, ?_, ?_, ?_⟩ <;>
      simp [FS.withFile, FS.withDir, hne', hw, beq_eq_false_iff_ne]

/-- Witness for C5 on the empty filesystem, platform `linux`, fresh
paths. -/
theorem C5_witness :
    (samplePair.WriteFiles "linux" emptyFS "pki/server.crt"
        "pki/server.key").1 = .ok () ∧
    ((samplePair.WriteFiles "linux" emptyFS "pki/server.crt"
        "pki/server.key").2.dirs (dirOf "pki/server.crt") = true ∧
     (samplePair.WriteFiles "linux" emptyFS "pki/server.crt"
        "pki/server.key").2.dirs (dirOf "pki/server.key") = true) ∧
    ((samplePair.WriteFiles "linux" emptyFS "pki/server.crt"
        "pki/server.key").2.files "pki/server.crt").map FileInfo.perm =
      some 0o644 ∧
    ((samplePair.WriteFiles "linux" emptyFS "pki/server.crt"
        "pki/server.key").2.files "pki/server.crt").map FileInfo.restricted =
      some false ∧
    ((samplePair.WriteFiles "linux" emptyFS "pki/server.crt"
        "pki/server.key").2.files "pki/server.key").map FileInfo.perm =
      some 0o600 ∧
    ((samplePair.WriteFiles "linux" emptyFS "pki/server.crt"
        "pki/server.key").2.files "pki/server.key").map FileInfo.restricted =
      some ("linux" == "windows") :=
  C5_write_files samplePair
    { SerialNumber := some 3
      Subject := { Organization := ["Acme"], CommonName := "Root" }
      BasicConstraintsValid := true }
    (.ec 256 2) "linux" emptyFS "pki/server.crt" "pki/server.key"
    (by decide) (by decide) (by decide) (by decide) (by decide) (by decide)
    (by decide) (by decide) (by decide)

end PGCrtAuth
